import Mathlib

/-!
Shallow embedding of the users/books REST backend (NestJS + TypeORM).

The database is a pair of in-memory tables (`Db`).  Repository calls are
modelled over these tables: `find` returns the whole table, `findOne` the
first row matching the predicate, `save` replaces the row with the same id
(or appends a new row), `delete` removes the rows with the given id and
reports whether any row was affected.  Generated uuids are modelled by an
explicit `newId` argument to the creating operations.  `bcrypt.hash`,
`bcrypt.compare` and `jwt.sign` are external black boxes and appear as
function parameters; the JWT signing *request* built by the service
(payload, secret, expiry) is modelled concretely.  Timestamp columns play
no role in any operation and are omitted.
-/

structure User where
  id : String
  email : String
  name : String
  password : String
  deriving Repr, DecidableEq

structure Book where
  id : String
  title : String
  author : String
  price : Int
  isSold : Bool
  buyer : Option User
  deriving Repr, DecidableEq

structure Db where
  users : List User
  books : List Book
  deriving Repr, DecidableEq

structure CreateUserDto where
  name : String
  email : String
  password : String
  deriving Repr, DecidableEq

structure UpdateUserDto where
  name : Option String
  email : Option String
  password : Option String
  deriving Repr, DecidableEq

structure LoginDto where
  email : String
  password : String
  deriving Repr, DecidableEq

/-- Modelled from the spec: the CreateBookDto source file is not under src/
(only its import sites are).  Following the spec's `createBook(data)` →
"isSold forced to false regardless of input", the input data carries
title/author/price and a possible isSold value that the service must ignore. -/
structure CreateBookDto where
  title : String
  author : String
  price : Int
  isSold : Option Bool
  deriving Repr, DecidableEq

structure UpdateBookDto where
  title : Option String
  author : Option String
  price : Option Int
  isSold : Option Bool
  deriving Repr, DecidableEq

/-- TypeORM `repo.save(row)` on the books table: rows whose id matches are
replaced; a row with a fresh id is appended. -/
def saveBookRow (books : List Book) (b : Book) : List Book :=
  if books.any (fun x => x.id == b.id) then
    books.map (fun x => if x.id == b.id then b else x)
  else
    books ++ [b]

/-! ## UsersService (src/app.module.ts second segment: users.service) -/

def UsersService.getUsers (db : Db) : List User :=
  db.users

def UsersService.findUserById (db : Db) (id : String) : Option User :=
  db.users.find? (fun u => u.id == id)

def UsersService.findUsersByEmail (db : Db) (email : String) : Option User :=
  db.users.find? (fun u => u.email == email)

/-- `addUser`: `repo.save(repo.create(dto))` with a generated id. -/
def UsersService.addUser (db : Db) (newId : String) (dto : CreateUserDto) : User × Db :=
  let entity : User := { id := newId, email := dto.email, name := dto.name,
                         password := dto.password }
  (entity, { db with users := db.users ++ [entity] })

/-- `removeUser`: `(await repo.delete(id)).affected` coerced to Bool. -/
def UsersService.removeUser (db : Db) (id : String) : Bool × Db :=
  (db.users.any (fun u => u.id == id),
   { db with users := db.users.filter (fun u => u.id != id) })

/-! ## JWT signing request (UsersService.login) -/

structure UserClaim where
  email : String
  deriving Repr, DecidableEq

/-- The payload `{ user: { email } }` passed to `jwt.signAsync`. -/
structure JwtPayload where
  user : UserClaim
  deriving Repr, DecidableEq

/-- Everything `UsersService.login` hands to the JWT library: the payload and
the options `{ secret: process.env.JWT_SECRET, expiresIn: '10m' }`. -/
structure SignRequest where
  payload : JwtPayload
  secret : Option String
  expiresIn : String
  deriving Repr, DecidableEq

/-- The `ms`-style duration string for a whole number of minutes. -/
def minutesExpiry (n : Nat) : String :=
  toString n ++ "m"

def UsersService.loginSignRequest (envJwtSecret : Option String) (email : String) :
    SignRequest :=
  { payload := { user := { email := email } },
    secret := envJwtSecret,
    expiresIn := "10m" }

structure TokenBody where
  token : String
  deriving Repr, DecidableEq

/-- `UsersService.login(email)`: sign the request and wrap as `{ token }`.
`sign` abstracts `jwt.signAsync`. -/
def UsersService.login (sign : SignRequest → String) (envJwtSecret : Option String)
    (email : String) : TokenBody :=
  { token := sign (UsersService.loginSignRequest envJwtSecret email) }

/-! ## BooksService (src/unnamed/part_001 last segment) -/

def BooksService.getBooks (db : Db) : List Book :=
  db.books

def BooksService.findBookById (db : Db) (id : String) : Option Book :=
  db.books.find? (fun b => b.id == id)

/-- `addBook`: `repo.save(repo.create({ ...dto, isSold: false }))`; the spread
puts `isSold: false` last, so it overrides any isSold carried by the dto, and
no buyer is set. -/
def BooksService.addBook (db : Db) (newId : String) (dto : CreateBookDto) : Book × Db :=
  let entity : Book := { id := newId, title := dto.title, author := dto.author,
                         price := dto.price, isSold := false, buyer := none }
  (entity, { db with books := db.books ++ [entity] })

/-- SQL `LOWER`, modelled as character-wise lowercasing. -/
def lowerStr (s : String) : String :=
  String.mk (s.data.map Char.toLower)

/-- `findBookByAuthor`: `WHERE LOWER(b.author) = LOWER(:a)`. -/
def BooksService.findBookByAuthor (db : Db) (author : String) : List Book :=
  db.books.filter (fun b => lowerStr b.author == lowerStr author)

def BooksService.removeBook (db : Db) (id : String) : Bool × Db :=
  (db.books.any (fun b => b.id == id),
   { db with books := db.books.filter (fun b => b.id != id) })

/-- `markBookAsSold`: look up the book, then the buyer; on success set
`isSold = true`, `buyer = resolved user`, and persist. -/
def BooksService.markBookAsSold (db : Db) (bookId userId : String) :
    Option (Book × Db) :=
  match BooksService.findBookById db bookId with
  | none => none
  | some book =>
    match UsersService.findUserById db userId with
    | none => none
    | some buyer =>
      let sold : Book := { book with isSold := true, buyer := some buyer }
      some (sold, { db with books := saveBookRow db.books sold })

/-- `updateBook`: `Object.assign(found, dto)` then save; a present dto field
overwrites the stored one (including isSold). -/
def BooksService.updateBook (db : Db) (id : String) (dto : UpdateBookDto) :
    Option (Book × Db) :=
  match BooksService.findBookById db id with
  | none => none
  | some b =>
    let merged : Book := { b with
      title := dto.title.getD b.title,
      author := dto.author.getD b.author,
      price := dto.price.getD b.price,
      isSold := dto.isSold.getD b.isSold }
    some (merged, { db with books := saveBookRow db.books merged })

/-- `buyBook(userId, bookId)`: null if the book is missing or already sold,
null if `markBookAsSold` fails (buyer missing), otherwise the Spanish
confirmation string built from the book's title and the buyer id. -/
def BooksService.buyBook (db : Db) (userId bookId : String) :
    Option (String × Db) :=
  match BooksService.findBookById db bookId with
  | none => none
  | some found =>
    if found.isSold then none
    else
      match BooksService.markBookAsSold db bookId userId with
      | none => none
      | some (_, db2) =>
        some ("El libro " ++ found.title ++
              " ha sido comprado por el usuario con ID " ++ userId ++ ".", db2)

/-! ## HTTP layer -/

inductive Body where
  | empty : Body
  | msg : String → Body
  | idEmail : String → String → Body
  | userList : List User → Body
  | userRec : User → Body
  | bookList : List Book → Body
  | bookRec : Book → Body
  | token : String → Body
  deriving Repr, DecidableEq

structure HttpResponse where
  status : Nat
  body : Body
  deriving Repr, DecidableEq

/-- The password hashes a JSON response body exposes. -/
def Body.passwords : Body → List String
  | Body.userList us => us.map (fun u => u.password)
  | Body.userRec u => [u.password]
  | _ => []

/-! ## UsersController -/

/-- POST /users: pre-lookup by email; 400 on duplicate (nothing persisted);
otherwise hash the password, persist, 201 with `{id, email}` only. -/
def UsersController.create (hash : String → String) (db : Db) (newId : String)
    (dto : CreateUserDto) : HttpResponse × Db :=
  match UsersService.findUsersByEmail db dto.email with
  | some _ => ({ status := 400, body := Body.msg "User already exists" }, db)
  | none =>
    let hashed : CreateUserDto := { dto with password := hash dto.password }
    let r := UsersService.addUser db newId hashed
    ({ status := 201, body := Body.idEmail r.1.id r.1.email }, r.2)

/-- GET /users: 200 with the raw user records. -/
def UsersController.findAll (db : Db) : HttpResponse :=
  { status := 200, body := Body.userList (UsersService.getUsers db) }

/-- GET /users/:id: 200 with the raw record, or 404. -/
def UsersController.findOne (db : Db) (id : String) : HttpResponse :=
  match UsersService.findUserById db id with
  | some u => { status := 200, body := Body.userRec u }
  | none => { status := 404, body := Body.msg "User not found" }

/-- DELETE /users/:id: 204 empty body if a row was removed, else 404. -/
def UsersController.remove (db : Db) (id : String) : HttpResponse × Db :=
  let r := UsersService.removeUser db id
  if r.1 then ({ status := 204, body := Body.empty }, r.2)
  else ({ status := 404, body := Body.msg "User not found" }, r.2)

/-- POST /users/login: 404 if the email is unknown, 401 if `bcrypt.compare`
rejects, else 200 with the token.  `compare plain hashed` abstracts
`bcrypt.compare`. -/
def UsersController.login (compare : String → String → Bool)
    (sign : SignRequest → String) (envJwtSecret : Option String)
    (db : Db) (body : LoginDto) : HttpResponse :=
  match UsersService.findUsersByEmail db body.email with
  | none => { status := 404, body := Body.msg "User not found" }
  | some user =>
    if compare body.password user.password then
      { status := 200,
        body := Body.token (UsersService.login sign envJwtSecret user.email).token }
    else
      { status := 401, body := Body.msg "Invalid credentials" }

/-! ## BooksController -/

/-- GET /books/:id. -/
def BooksController.findOne (db : Db) (id : String) : HttpResponse :=
  match BooksService.findBookById db id with
  | some b => { status := 200, body := Body.bookRec b }
  | none => { status := 404, body := Body.msg "Book not found" }

/-- DELETE /books/:id: 204 if removed, else 404. -/
def BooksController.remove (db : Db) (id : String) : HttpResponse × Db :=
  let r := BooksService.removeBook db id
  if r.1 then ({ status := 204, body := Body.empty }, r.2)
  else ({ status := 404, body := Body.msg "Book not found" }, r.2)

/-- POST /books/:bookId/buy/:userId: 200 `{message}` when `buyBook` succeeds,
404 with the fixed message when it returns null. -/
def BooksController.buy (db : Db) (bookId userId : String) : HttpResponse × Db :=
  match BooksService.buyBook db userId bookId with
  | some r => ({ status := 200, body := Body.msg r.1 }, r.2)
  | none => ({ status := 404, body := Body.msg "Book not found or already sold" }, db)

/-! ## The sale invariant (§3 of the spec) -/

/-- isSold=true iff buyer is set. -/
def bookInv (b : Book) : Bool :=
  b.isSold == b.buyer.isSome

def bookInvDb (db : Db) : Bool :=
  db.books.all bookInv

/-! ## Concrete example rows used by witnesses and counterexamples -/

def exUser : User :=
  { id := "u1", email := "a@b.com", name := "Ana", password := "hash1" }

def exBook : Book :=
  { id := "b1", title := "T", author := "Tolkien", price := 10,
    isSold := false, buyer := none }

def exDb : Db :=
  { users := [exUser], books := [exBook] }

def exEmptyDb : Db :=
  { users := [], books := [] }

def exSellDto : UpdateBookDto :=
  { title := none, author := none, price := none, isSold := some true }

def exCreateBookDto : CreateBookDto :=
  { title := "U", author := "Austen", price := 7, isSold := some true }

/-! ## Helper lemmas -/

lemma mem_saveBookRow {books : List Book} {b x : Book}
    (hx : x ∈ saveBookRow books b) : x = b ∨ x ∈ books := by
  unfold saveBookRow at hx
  split at hx
  · rcases List.mem_map.mp hx with ⟨y, hy, hxy⟩
    split at hxy
    · exact Or.inl hxy.symm
    · exact Or.inr (hxy ▸ hy)
  · rcases List.mem_append.mp hx with h | h
    · exact Or.inr h
    · exact Or.inl (List.mem_singleton.mp h)

lemma bookInvDb_iff (db : Db) :
    bookInvDb db = true ↔ ∀ b ∈ db.books, bookInv b = true := by
  simp [bookInvDb, List.all_eq_true]

lemma findBookById_mem {db : Db} {id : String} {b : Book}
    (h : BooksService.findBookById db id = some b) : b ∈ db.books :=
  List.mem_of_find?_eq_some h

/-! ## Claims -/

/-- C4: for every input data, `addBook` persists a new book record whose
`isSold` field is false, regardless of any isSold value present in the
input dto. -/
theorem C4_addBook_forces_isSold_false (db : Db) (newId : String)
    (dto : CreateBookDto) :
    (BooksService.addBook db newId dto).1.isSold = false ∧
    (BooksService.addBook db newId dto).1 ∈ (BooksService.addBook db newId dto).2.books := by
  refine ⟨rfl, ?_⟩
  simp [BooksService.addBook]

/-- C5: `findBookByAuthor` is a case-insensitive exact match on the author
field, returning the (possibly empty) list of stored books whose lowercased
author equals the lowercased query; queries differing only in letter case
return identical result sets. -/
theorem C5_findBookByAuthor_case_insensitive (db : Db) (a1 a2 : String) :
    (∀ b, b ∈ BooksService.findBookByAuthor db a1 ↔
        b ∈ db.books ∧ lowerStr b.author = lowerStr a1) ∧
    (lowerStr a1 = lowerStr a2 →
        BooksService.findBookByAuthor db a1 = BooksService.findBookByAuthor db a2) := by
  constructor
  · intro b
    simp [BooksService.findBookByAuthor, List.mem_filter]
  · intro h
    simp [BooksService.findBookByAuthor, h]

theorem C5_witness :
    BooksService.findBookByAuthor exDb "tolkien"
      = BooksService.findBookByAuthor exDb "TOLKIEN" :=
  (C5_findBookByAuthor_case_insensitive exDb "tolkien" "TOLKIEN").2 (by decide)

/-- C9: for every email, `UsersService.login` signs a request whose payload
embeds the email under the claim named `user`, whose expiry is the 10-minute
duration string, and whose symmetric secret is taken from the process
configuration (`process.env.JWT_SECRET`); the returned body is `{token}`. -/
theorem C9_login_sign_request (sign : SignRequest → String) (env : Option String)
    (email : String) :
    (UsersService.login sign env email).token
        = sign (UsersService.loginSignRequest env email) ∧
    (UsersService.loginSignRequest env email).payload.user.email = email ∧
    (UsersService.loginSignRequest env email).expiresIn = minutesExpiry 10 ∧
    (UsersService.loginSignRequest env email).secret = env :=
  ⟨rfl, rfl, rfl, rfl⟩

/-- C1: for every existing book with isSold=false and every user id resolving
to an existing user, `buyBook(userId, bookId)` returns exactly
"El libro <title> ha sido comprado por el usuario con ID <userId>." and the
POST /books/:bookId/buy/:userId endpoint answers 200 with that message. -/
theorem C1_buy_confirmation (db : Db) (bookId userId : String) (book : Book)
    (user : User)
    (hb : BooksService.findBookById db bookId = some book)
    (hs : book.isSold = false)
    (hu : UsersService.findUserById db userId = some user) :
    ∃ db2,
      BooksService.buyBook db userId bookId =
        some ("El libro " ++ book.title ++
              " ha sido comprado por el usuario con ID " ++ userId ++ ".", db2) ∧
      BooksController.buy db bookId userId =
        ({ status := 200,
           body := Body.msg ("El libro " ++ book.title ++
             " ha sido comprado por el usuario con ID " ++ userId ++ ".") }, db2) := by
  refine ⟨{ db with
      books := saveBookRow db.books { book with isSold := true, buyer := some user } },
    ?_, ?_⟩ <;>
  simp [BooksService.buyBook, BooksService.markBookAsSold, BooksController.buy,
    hb, hu, hs]

theorem C1_witness :
    ∃ db2,
      BooksService.buyBook exDb "u1" "b1" =
        some ("El libro " ++ exBook.title ++
              " ha sido comprado por el usuario con ID " ++ "u1" ++ ".", db2) ∧
      BooksController.buy exDb "b1" "u1" =
        ({ status := 200,
           body := Body.msg ("El libro " ++ exBook.title ++
             " ha sido comprado por el usuario con ID " ++ "u1" ++ ".") }, db2) :=
  C1_buy_confirmation exDb "b1" "u1" exBook exUser (by decide) (by decide) (by decide)

/-- C2: `buyBook` returns an absent result exactly when the book is missing,
already sold, or the buyer id is unknown; in every such case the buy endpoint
answers 404 {message: "Book not found or already sold"} and leaves the
database unchanged. -/
theorem C2_buy_absent_iff (db : Db) (userId bookId : String) :
    (BooksService.buyBook db userId bookId = none ↔
      BooksService.findBookById db bookId = none ∨
      (∃ b, BooksService.findBookById db bookId = some b ∧ b.isSold = true) ∨
      UsersService.findUserById db userId = none) ∧
    (BooksService.buyBook db userId bookId = none →
      BooksController.buy db bookId userId =
        ({ status := 404, body := Body.msg "Book not found or already sold" }, db)) := by
  constructor
  · cases hb : BooksService.findBookById db bookId with
    | none => simp [BooksService.buyBook, hb]
    | some b =>
      by_cases hs : b.isSold
      · simp [BooksService.buyBook, hb, hs]
      · cases hu : UsersService.findUserById db userId with
        | none =>
          simp [BooksService.buyBook, BooksService.markBookAsSold, hb, hs, hu]
        | some u =>
          simp [BooksService.buyBook, BooksService.markBookAsSold, hb, hs, hu]
  · intro h
    simp [BooksController.buy, h]

theorem C2_witness :
    BooksController.buy exEmptyDb "b1" "u1" =
      ({ status := 404, body := Body.msg "Book not found or already sold" },
       exEmptyDb) :=
  (C2_buy_absent_iff exEmptyDb "u1" "b1").2 (by decide)

/-- C6: when a user with the requested email already exists, POST /users
answers 400 {message: "User already exists"} and returns the database
unchanged (the pre-lookup rejects before any insert). -/
theorem C6_duplicate_email_rejected (hash : String → String) (db : Db)
    (newId : String) (dto : CreateUserDto) (u : User)
    (h : UsersService.findUsersByEmail db dto.email = some u) :
    UsersController.create hash db newId dto =
      ({ status := 400, body := Body.msg "User already exists" }, db) := by
  simp [UsersController.create, h]

def exDupDto : CreateUserDto :=
  { name := "Ana 2", email := "a@b.com", password := "pw" }

theorem C6_witness :
    UsersController.create (fun s => s) exDb "u9" exDupDto =
      ({ status := 400, body := Body.msg "User already exists" }, exDb) :=
  C6_duplicate_email_rejected (fun s => s) exDb "u9" exDupDto exUser (by decide)

/-- C7: POST /users/login answers 404 when no user has the email, 401
{message: "Invalid credentials"} when the user exists but bcrypt.compare
rejects the password against the stored hash, and 200 with a token when it
matches. -/
theorem C7_login_statuses (compare : String → String → Bool)
    (sign : SignRequest → String) (env : Option String) (db : Db)
    (body : LoginDto) :
    (UsersService.findUsersByEmail db body.email = none →
      UsersController.login compare sign env db body =
        { status := 404, body := Body.msg "User not found" }) ∧
    (∀ u, UsersService.findUsersByEmail db body.email = some u →
      compare body.password u.password = false →
      UsersController.login compare sign env db body =
        { status := 401, body := Body.msg "Invalid credentials" }) ∧
    (∀ u, UsersService.findUsersByEmail db body.email = some u →
      compare body.password u.password = true →
      UsersController.login compare sign env db body =
        { status := 200,
          body := Body.token (UsersService.login sign env u.email).token }) := by
  refine ⟨fun h => by simp [UsersController.login, h],
          fun u hu hc => by simp [UsersController.login, hu, hc],
          fun u hu hc => by simp [UsersController.login, hu, hc]⟩

theorem C7_witness :
    (UsersController.login (fun p h => p == h) (fun _ => "tok") none exEmptyDb
        { email := "a@b.com", password := "hash1" } =
      { status := 404, body := Body.msg "User not found" }) ∧
    (UsersController.login (fun p h => p == h) (fun _ => "tok") none exDb
        { email := "a@b.com", password := "wrong" } =
      { status := 401, body := Body.msg "Invalid credentials" }) ∧
    (UsersController.login (fun p h => p == h) (fun _ => "tok") none exDb
        { email := "a@b.com", password := "hash1" } =
      { status := 200, body := Body.token "tok" }) :=
  ⟨(C7_login_statuses (fun p h => p == h) (fun _ => "tok") none exEmptyDb
      { email := "a@b.com", password := "hash1" }).1 (by decide),
   (C7_login_statuses (fun p h => p == h) (fun _ => "tok") none exDb
      { email := "a@b.com", password := "wrong" }).2.1 exUser (by decide) (by decide),
   (C7_login_statuses (fun p h => p == h) (fun _ => "tok") none exDb
      { email := "a@b.com", password := "hash1" }).2.2 exUser (by decide) (by decide)⟩

/-! ## Invariant helper lemmas -/

lemma markBookAsSold_inv {db : Db} (h : bookInvDb db = true)
    {bookId userId : String} {p : Book × Db}
    (hm : BooksService.markBookAsSold db bookId userId = some p) :
    bookInvDb p.2 = true := by
  have hall := (bookInvDb_iff db).mp h
  unfold BooksService.markBookAsSold at hm
  cases hb : BooksService.findBookById db bookId with
  | none => rw [hb] at hm; exact absurd hm (by simp)
  | some book =>
    rw [hb] at hm
    cases hu : UsersService.findUserById db userId with
    | none => rw [hu] at hm; exact absurd hm (by simp)
    | some buyer =>
      rw [hu] at hm
      have hp := (Option.some.injEq _ _).mp hm
      rw [bookInvDb_iff]
      intro b hbm
      rw [← hp] at hbm
      rcases mem_saveBookRow hbm with hbe | hbmem
      · rw [hbe]; rfl
      · exact hall b hbmem

/-! ## Remaining claims -/

/-- C3 counterexample: starting from a state satisfying the sale invariant
(isSold iff buyer set), `updateBook` with a dto that sets isSold=true yields a
state violating it (the book becomes sold with no buyer), so not every service
operation preserves the invariant. -/
theorem C3_counterexample :
    bookInvDb exDb = true ∧
    (BooksService.updateBook exDb "b1" exSellDto).map (fun p => bookInvDb p.2)
      = some false := by
  constructor <;> decide

/-- C3 (amended): `addBook`, `markBookAsSold`, `buyBook` and `removeBook`
preserve the invariant "isSold=true iff buyer is set"; `updateBook` preserves
it when the partial data does not set isSold, but can violate it when isSold
is set directly (the generic update path bypasses the purchase invariant). -/
theorem C3_amended_invariant_preservation (db : Db) (h : bookInvDb db = true) :
    (∀ newId dto, bookInvDb (BooksService.addBook db newId dto).2 = true) ∧
    (∀ bookId userId p, BooksService.markBookAsSold db bookId userId = some p →
        bookInvDb p.2 = true) ∧
    (∀ userId bookId p, BooksService.buyBook db userId bookId = some p →
        bookInvDb p.2 = true) ∧
    (∀ id, bookInvDb (BooksService.removeBook db id).2 = true) ∧
    (∀ id dto, dto.isSold = none →
        ∀ p, BooksService.updateBook db id dto = some p → bookInvDb p.2 = true) := by
  have hall := (bookInvDb_iff db).mp h
  refine ⟨?_, ?_, ?_, ?_, ?_⟩
  · intro newId dto
    rw [bookInvDb_iff]
    intro b hbm
    simp only [BooksService.addBook, List.mem_append, List.mem_singleton] at hbm
    rcases hbm with hbm | hbm
    · exact hall b hbm
    · rw [hbm]; rfl
  · intro bookId userId p hm
    exact markBookAsSold_inv h hm
  · intro userId bookId p hm
    unfold BooksService.buyBook at hm
    cases hb : BooksService.findBookById db bookId with
    | none => rw [hb] at hm; exact absurd hm (by simp)
    | some found =>
      simp only [hb] at hm
      by_cases hs : found.isSold = true
      · rw [if_pos hs] at hm; exact absurd hm (by simp)
      · rw [if_neg hs] at hm
        cases hmk : BooksService.markBookAsSold db bookId userId with
        | none => rw [hmk] at hm; exact absurd hm (by simp)
        | some q =>
          obtain ⟨s2, db2⟩ := q
          rw [hmk] at hm
          have hp := (Option.some.injEq _ _).mp hm
          have h2 : p.2 = db2 := by rw [← hp]
          rw [h2]
          exact markBookAsSold_inv h hmk
  · intro id
    rw [bookInvDb_iff]
    intro b hbm
    exact hall b (List.mem_of_mem_filter hbm)
  · intro id dto hnone p hm
    unfold BooksService.updateBook at hm
    cases hb : BooksService.findBookById db id with
    | none => rw [hb] at hm; exact absurd hm (by simp)
    | some b0 =>
      rw [hb] at hm
      have hp := (Option.some.injEq _ _).mp hm
      have hb0 := hall b0 (findBookById_mem hb)
      rw [bookInvDb_iff]
      intro b hbm
      rw [← hp] at hbm
      rcases mem_saveBookRow hbm with hbe | hbmem
      · rw [hbe]
        simp only [bookInv, hnone, Option.getD_none] at hb0 ⊢
        exact hb0
      · exact hall b hbmem

theorem C3_amended_witness :
    bookInvDb (BooksService.addBook exDb "b9" exCreateBookDto).2 = true :=
  (C3_amended_invariant_preservation exDb (by decide)).1 "b9" exCreateBookDto

/-! ## Delete helper lemmas -/

lemma any_filter_ne_false {α : Type} (f : α → String) (l : List α) (id : String) :
    ((l.filter (fun x => f x != id)).any (fun x => f x == id)) = false := by
  rw [List.any_eq_false]
  intro x hx
  have h2 := (List.mem_filter.mp hx).2
  simp only [bne_iff_ne, ne_eq, decide_eq_true_eq] at h2
  simp [h2]

lemma filter_ne_eq_self {α : Type} (f : α → String) (l : List α) (id : String)
    (h : l.any (fun x => f x == id) = false) :
    l.filter (fun x => f x != id) = l := by
  rw [List.filter_eq_self]
  intro a ha
  have := (List.any_eq_false.mp h) a ha
  simpa using this

/-- C8: deletion is one-shot.  `removeUser`/`removeBook` report true exactly
when a record with the id exists, afterwards no record with that id remains
and an immediately repeated delete reports false; deleting a missing id
leaves the table unchanged.  HTTP: the delete endpoints answer 204 then 404
(404 with the resource-specific message and an unchanged database when
nothing was removed). -/
theorem C8_delete_one_shot (db : Db) (id : String) :
    (((UsersService.removeUser db id).1 = true ↔ ∃ u ∈ db.users, u.id = id) ∧
     (∀ u ∈ (UsersService.removeUser db id).2.users, u.id ≠ id) ∧
     ((UsersService.removeUser (UsersService.removeUser db id).2 id).1 = false) ∧
     ((UsersService.removeUser db id).1 = false →
        (UsersService.removeUser db id).2 = db) ∧
     ((UsersService.removeUser db id).1 = true →
        UsersController.remove db id =
          ({ status := 204, body := Body.empty }, (UsersService.removeUser db id).2)) ∧
     (UsersController.remove (UsersController.remove db id).2 id =
          ({ status := 404, body := Body.msg "User not found" },
           (UsersController.remove db id).2)) ∧
     ((UsersService.removeUser db id).1 = false →
        UsersController.remove db id =
          ({ status := 404, body := Body.msg "User not found" }, db))) ∧
    ((((BooksService.removeBook db id).1 = true ↔ ∃ b ∈ db.books, b.id = id) ∧
     (∀ b ∈ (BooksService.removeBook db id).2.books, b.id ≠ id) ∧
     ((BooksService.removeBook (BooksService.removeBook db id).2 id).1 = false) ∧
     ((BooksService.removeBook db id).1 = false →
        (BooksService.removeBook db id).2 = db) ∧
     ((BooksService.removeBook db id).1 = true →
        BooksController.remove db id =
          ({ status := 204, body := Body.empty }, (BooksService.removeBook db id).2)) ∧
     (BooksController.remove (BooksController.remove db id).2 id =
          ({ status := 404, body := Body.msg "Book not found" },
           (BooksController.remove db id).2)) ∧
     ((BooksService.removeBook db id).1 = false →
        BooksController.remove db id =
          ({ status := 404, body := Body.msg "Book not found" }, db)))) := by
  have hu2f : (UsersService.removeUser (UsersService.removeUser db id).2 id).1 = false :=
    any_filter_ne_false User.id db.users id
  have hb2f : (BooksService.removeBook (BooksService.removeBook db id).2 id).1 = false :=
    any_filter_ne_false Book.id db.books id
  refine ⟨⟨?_, ?_, hu2f, ?_, ?_, ?_, ?_⟩, ⟨?_, ?_, hb2f, ?_, ?_, ?_, ?_⟩⟩
  · simp [UsersService.removeUser, List.any_eq_true]
  · intro u hu
    have := (List.mem_filter.mp hu).2
    simpa using this
  · intro hfalse
    have hf : db.users.any (fun u => u.id == id) = false := hfalse
    have : db.users.filter (fun u => u.id != id) = db.users :=
      filter_ne_eq_self User.id db.users id hf
    simp [UsersService.removeUser, this]
  · intro htrue
    simp [UsersController.remove, htrue]
  · have hsnd : (UsersController.remove db id).2 = (UsersService.removeUser db id).2 := by
      cases hr : (UsersService.removeUser db id).1 <;>
        simp [UsersController.remove, hr]
    rw [hsnd]
    have hf2 : (UsersService.removeUser db id).2.users.any (fun u => u.id == id)
        = false := hu2f
    have hflt : (UsersService.removeUser db id).2.users.filter (fun u => u.id != id)
        = (UsersService.removeUser db id).2.users :=
      filter_ne_eq_self User.id _ id hf2
    have h2nd : (UsersService.removeUser (UsersService.removeUser db id).2 id).2
        = (UsersService.removeUser db id).2 := by
      simp [UsersService.removeUser, hflt]
    simp [UsersController.remove, hu2f, h2nd]
  · intro hfalse
    have hf : db.users.any (fun u => u.id == id) = false := hfalse
    have hflt : db.users.filter (fun u => u.id != id) = db.users :=
      filter_ne_eq_self User.id db.users id hf
    have h2 : (UsersService.removeUser db id).2 = db := by
      simp [UsersService.removeUser, hflt]
    simp [UsersController.remove, hfalse, h2]
  · simp [BooksService.removeBook, List.any_eq_true]
  · intro b hb
    have := (List.mem_filter.mp hb).2
    simpa using this
  · intro hfalse
    have hf : db.books.any (fun b => b.id == id) = false := hfalse
    have : db.books.filter (fun b => b.id != id) = db.books :=
      filter_ne_eq_self Book.id db.books id hf
    simp [BooksService.removeBook, this]
  · intro htrue
    simp [BooksController.remove, htrue]
  · have hsnd : (BooksController.remove db id).2 = (BooksService.removeBook db id).2 := by
      cases hr : (BooksService.removeBook db id).1 <;>
        simp [BooksController.remove, hr]
    rw [hsnd]
    have hf2 : (BooksService.removeBook db id).2.books.any (fun b => b.id == id)
        = false := hb2f
    have hflt : (BooksService.removeBook db id).2.books.filter (fun b => b.id != id)
        = (BooksService.removeBook db id).2.books :=
      filter_ne_eq_self Book.id _ id hf2
    have h2nd : (BooksService.removeBook (BooksService.removeBook db id).2 id).2
        = (BooksService.removeBook db id).2 := by
      simp [BooksService.removeBook, hflt]
    simp [BooksController.remove, hb2f, h2nd]
  · intro hfalse
    have hf : db.books.any (fun b => b.id == id) = false := hfalse
    have hflt : db.books.filter (fun b => b.id != id) = db.books :=
      filter_ne_eq_self Book.id db.books id hf
    have h2 : (BooksService.removeBook db id).2 = db := by
      simp [BooksService.removeBook, hflt]
    simp [BooksController.remove, hfalse, h2]

theorem C8_witness :
    (UsersController.remove exDb "u1" =
      ({ status := 204, body := Body.empty }, (UsersService.removeUser exDb "u1").2)) ∧
    (UsersController.remove (UsersController.remove exDb "u1").2 "u1" =
      ({ status := 404, body := Body.msg "User not found" },
       (UsersController.remove exDb "u1").2)) ∧
    (BooksController.remove exDb "b1" =
      ({ status := 204, body := Body.empty }, (BooksService.removeBook exDb "b1").2)) :=
  ⟨(C8_delete_one_shot exDb "u1").1.2.2.2.2.1 (by decide),
   (C8_delete_one_shot exDb "u1").1.2.2.2.2.2.1,
   (C8_delete_one_shot exDb "b1").2.2.2.2.2.1 (by decide)⟩

/-- C10 (implicit): GET /users and GET /users/:id return the stored user
records unfiltered, so their 200 bodies carry the stored password hash of
every returned user; only the POST /users signup response restricts its body
to {id, email}, exposing no password. -/
theorem C10_password_exposure (hash : String → String) (db : Db)
    (id newId : String) (dto : CreateUserDto) :
    (UsersController.findAll db = { status := 200, body := Body.userList db.users } ∧
     (UsersController.findAll db).body.passwords
        = db.users.map (fun u => u.password)) ∧
    (∀ u, UsersService.findUserById db id = some u →
      UsersController.findOne db id = { status := 200, body := Body.userRec u } ∧
      (UsersController.findOne db id).body.passwords = [u.password]) ∧
    (UsersService.findUsersByEmail db dto.email = none →
      (UsersController.create hash db newId dto).1 =
        { status := 201, body := Body.idEmail newId dto.email } ∧
      (UsersController.create hash db newId dto).1.body.passwords = []) := by
  refine ⟨⟨rfl, rfl⟩, fun u hu => ?_, fun h => ?_⟩
  · constructor <;> simp [UsersController.findOne, hu, Body.passwords]
  · constructor <;>
      simp [UsersController.create, h, UsersService.addUser, Body.passwords]

def exNewDto : CreateUserDto :=
  { name := "Bea", email := "b@b.com", password := "pw2" }

theorem C10_witness :
    (UsersController.findOne exDb "u1" =
        { status := 200, body := Body.userRec exUser } ∧
     (UsersController.findOne exDb "u1").body.passwords = [exUser.password]) ∧
    ((UsersController.create (fun s => s) exDb "u9" exNewDto).1 =
        { status := 201, body := Body.idEmail "u9" exNewDto.email } ∧
     (UsersController.create (fun s => s) exDb "u9" exNewDto).1.body.passwords = []) :=
  ⟨(C10_password_exposure (fun s => s) exDb "u1" "u9" exNewDto).2.1 exUser (by decide),
   (C10_password_exposure (fun s => s) exDb "u1" "u9" exNewDto).2.2 (by decide)⟩
